import Mathlib

/-!
Shallow embedding of the aggregation/resilience core of the SME Analytica
repository, together with theorems settling the specification claims about it.

The embedding translates, from the Python sources:
* `DataSourceManager` (`smeanalytica/core/data/data_source_manager.py`):
  the TTL cache (`_get_cache_key`, `_get_from_cache`, `_add_to_cache`) and the
  three public operations `get_business_data`, `get_reviews`, `get_competitors`.
  Network provider calls are abstracted as `Except`-valued inputs (an
  environment record), since every provider interaction in the source is a
  single awaited call whose result or failure is all the surrounding logic
  observes.
* `BusinessDataFetcher` (`smeanalytica/shared/business_data_fetcher.py`):
  `_combine_business_data` and the retry loop `_make_api_request`.
* `APIRateLimiter` (`smeanalytica/shared/google_places_adapter.py`):
  `wait_if_needed`, modelled on an explicit rational-valued clock where a call
  entering at time `e` is admitted at `e` plus whatever `time.sleep` the code
  performs.
* `get_restaurant_details` (`shared/data_fetchers.py`): the candidate-matching
  block.

Numeric JSON values (ratings, price levels) are modelled as `Rat`; wall-clock
times are `Rat` seconds.  Python string operations `.lower()` and `in` are
modelled by `String.toLower` and substring containment on the character list.
-/

/-- Market data dict from `_get_market_data`; the aggregation code only ever
tests it for emptiness and stores it, so it is modelled as an association
list of string keys and values. -/
abbrev MarketData := List (String × String)

/-- A review record as built by `_get_places_data` / `_get_reviews_from_tripadvisor`
(keys `rating`, `text`, `time_created`, `user`, `source`). -/
structure Review where
  rating : Rat
  text : String
  time_created : String
  user : String
  source : String
deriving DecidableEq, Repr

/-- The dict returned by `DataSourceManager._get_places_data` on success
(lines 257-265): keys `place_id`, `formatted_address`, `rating`,
`price_level` (default 2, hence always present), `types`, `reviews`,
`user_ratings_total` (default 0). -/
structure PlacesData where
  place_id : String
  formatted_address : Option String
  rating : Option Rat
  price_level : Rat
  types : List String
  reviews : List Review
  user_ratings_total : Nat
deriving DecidableEq, Repr

/-- A competitor dict as merged in `DataSourceManager.get_competitors`.
Only the keys consulted by the de-duplication and sorting code are modelled:
`name`, `rating` (absent key modelled as `none`, defaulted to 0 by the sort),
`price_level` (defaulted to 5 by the sort) and the review count. -/
structure CompetitorRec where
  name : String
  rating : Option Rat
  price_level : Option Rat
  reviews_count : Nat
deriving DecidableEq, Repr

/-- The business-data dict built by `DataSourceManager.get_business_data`.
The first seven fields are the keys of the initial dict (lines 139-147);
the remaining fields are the extra keys that `data.update(places_data)`
can add, absent (`none` / `[]`) until then. -/
structure BusinessData where
  name : String
  btype : Option String
  location : Option String
  rating : Option Rat
  price_level : Option Rat
  competitors : List CompetitorRec
  market_data : MarketData
  place_id : Option String
  formatted_address : Option String
  types : List String
  reviews : List Review
  user_ratings_total : Option Nat
deriving DecidableEq, Repr

/-- The initial response dict of `get_business_data` (lines 139-147), which is
also, verbatim, the fallback dict returned on total failure (lines 192-200). -/
def initial_business_data (business_name : String) (business_type location : Option String) :
    BusinessData :=
  { name := business_name
    btype := business_type
    location := location
    rating := none
    price_level := none
    competitors := []
    market_data := []
    place_id := none
    formatted_address := none
    types := []
    reviews := []
    user_ratings_total := none }

/-- `data.update(places_data)` (line 153): every key of the Places dict is
written into the response dict. -/
def apply_places_data (d : BusinessData) (p : PlacesData) : BusinessData :=
  { d with
    rating := p.rating
    price_level := some p.price_level
    place_id := some p.place_id
    formatted_address := p.formatted_address
    types := p.types
    reviews := p.reviews
    user_ratings_total := some p.user_ratings_total }

/-- Outcomes of the three provider calls made by `get_business_data`:
`_get_places_data` (which can return `None`, modelled `ok none`),
`_get_competitor_data` and `_get_market_data`.  An `error` value models the
call raising an exception. -/
structure ProviderEnv where
  places : Except String (Option PlacesData)
  competitors : Except String (List CompetitorRec)
  market : Except String MarketData

/-- The in-memory cache `self.cache`: a mapping from string keys to
`(data, timestamp)` pairs, modelled as an association list that
`add_to_cache` keeps duplicate-free. -/
abbrev Cache (V : Type) := List (String × V × Rat)

/-- `self.cache_ttl = timedelta(minutes=10)` in seconds (line 50). -/
def cache_ttl_seconds : Rat := 600

/-- `DataSourceManager._get_cache_key` (lines 62-64). -/
def get_cache_key (business_name data_type : String) : String :=
  business_name ++ ":" ++ data_type

/-- `DataSourceManager._get_from_cache` (lines 66-73): a fresh-enough entry is
returned; an expired entry is deleted (`del self.cache[key]`) and the lookup
misses.  Returns the (possibly evicted) cache alongside the result. -/
def get_from_cache {V : Type} (cache : Cache V) (key : String) (now : Rat) :
    Option V × Cache V :=
  match cache.find? (fun e => e.1 == key) with
  | none => (none, cache)
  | some e =>
    if now - e.2.2 < cache_ttl_seconds then (some e.2.1, cache)
    else (none, cache.filter (fun e2 => e2.1 != key))

/-- `DataSourceManager._add_to_cache` (lines 75-77): dict assignment
`self.cache[key] = (data, time.time())`. -/
def add_to_cache {V : Type} (cache : Cache V) (key : String) (v : V) (now : Rat) :
    Cache V :=
  (key, v, now) :: cache.filter (fun e => e.1 != key)

/-- Lines 139-183 of `get_business_data`: build the fresh record.  Each of the
three provider calls sits in its own `try`/`except` whose handler keeps the
data accumulated so far, so a failed call leaves the dict unchanged; a Places
`None` result, an empty competitor list and an empty market dict are falsy in
the source's truthiness checks and likewise leave the dict unchanged. -/
def fetch_fresh_business_data (env : ProviderEnv) (business_name : String)
    (business_type location : Option String) : BusinessData :=
  let data := initial_business_data business_name business_type location
  let data := match env.places with
    | .ok (some p) => apply_places_data data p
    | .ok none => data
    | .error _ => data
  let data := match env.competitors with
    | .ok cs => if cs.isEmpty then data else { data with competitors := cs }
    | .error _ => data
  match env.market with
  | .ok m => if m.isEmpty then data else { data with market_data := m }
  | .error _ => data

/-- `DataSourceManager.get_business_data` (lines 128-200).  The whole body is
wrapped in `try`/`except Exception` returning a fallback dict, and every
statement that can raise is already inside an inner handler, so the function
is total; the cache is threaded explicitly in place of `self.cache` mutation. -/
def get_business_data (env : ProviderEnv) (cache : Cache BusinessData) (now : Rat)
    (business_name : String) (business_type location : Option String)
    (force_refresh : Bool) : BusinessData × Cache BusinessData :=
  let cache_key := get_cache_key business_name "business_data"
  let lookup := if force_refresh then (none, cache) else get_from_cache cache cache_key now
  match lookup with
  | (some d, cache) => (d, cache)
  | (none, cache) =>
    let data := fetch_fresh_business_data env business_name business_type location
    (data, add_to_cache cache cache_key data now)

/-- Claim C1: for every business name, `get_business_data` returns a record and
never raises, even when every provider call fails; on total failure the result
is the minimal placeholder record carrying the requested name, type and
location, with `rating` and `price_level` null, an empty competitor list and
empty market data.  (Totality holds by construction: the source wraps the whole
body in `except Exception` and each provider call in its own handler.) -/
theorem c1_total_failure_placeholder (e1 e2 e3 : String) (business_name : String)
    (business_type location : Option String) (now : Rat) :
    (get_business_data ⟨.error e1, .error e2, .error e3⟩ [] now
        business_name business_type location false).1 =
      { name := business_name
        btype := business_type
        location := location
        rating := none
        price_level := none
        competitors := []
        market_data := []
        place_id := none
        formatted_address := none
        types := []
        reviews := []
        user_ratings_total := none } := rfl

/-- Outcomes of the three review sources queried by `get_reviews`:
`_get_places_data` (whose `reviews` key is consulted), `_get_reviews_from_yelp`
and `_get_reviews_from_tripadvisor`. -/
structure ReviewsEnv where
  places : Except String (Option PlacesData)
  yelp : Except String (List Review)
  tripadvisor : Except String (List Review)

/-- The text of the placeholder review built at line 623. -/
def default_review_text (errors : List String) : String :=
  "No reviews found. Please note that this is a default placeholder. Errors: " ++
    String.intercalate "; " errors

/-- The placeholder review returned by `get_reviews` when no source produced a
review (lines 621-627); `now_str` models `time.strftime(...)`. -/
def default_review (errors : List String) (now_str : String) : Review :=
  { rating := 3
    text := default_review_text errors
    time_created := now_str
    user := "System"
    source := "default" }

/-- Lines 588-616 of `get_reviews`: accumulate reviews source by source, each
source guarded by its own `try`/`except` that records an error string, and the
second and third source only queried while fewer than `limit` reviews have been
accumulated. -/
def gather_reviews (env : ReviewsEnv) (limit : Nat) : List Review × List String :=
  let step1 : List Review × List String :=
    match env.places with
    | .ok (some p) => (if p.reviews.isEmpty then [] else p.reviews, [])
    | .ok none => ([], [])
    | .error e => ([], ["google_places: " ++ e])
  let step2 : List Review × List String :=
    if step1.1.length < limit then
      match env.yelp with
      | .ok rs => (step1.1 ++ rs, step1.2)
      | .error e => (step1.1, step1.2 ++ ["yelp: " ++ e])
    else step1
  if step2.1.length < limit then
    match env.tripadvisor with
    | .ok rs => (step2.1 ++ rs, step2.2)
    | .error e => (step2.1, step2.2 ++ ["tripadvisor: " ++ e])
  else step2

/-- Sort relation of `all_reviews.sort(key=lambda x: x.get('time_created', ''),
reverse=True)`: stable descending order on the `time_created` string. -/
def review_sort_le (a b : Review) : Bool :=
  decide (b.time_created ≤ a.time_created)

/-- `DataSourceManager.get_reviews` (lines 580-636).  On a cache hit the cached
list is returned; otherwise reviews are gathered, and if none were found the
placeholder review is returned WITHOUT being cached (early `return` at line
621), else the sorted, truncated list is cached and returned. -/
def get_reviews (env : ReviewsEnv) (cache : Cache (List Review)) (now : Rat)
    (now_str : String) (business_name : String) (limit : Nat) :
    List Review × Cache (List Review) :=
  let cache_key := get_cache_key business_name "reviews"
  match get_from_cache cache cache_key now with
  | (some rs, cache) => (rs, cache)
  | (none, cache) =>
    let gathered := gather_reviews env limit
    if gathered.1.isEmpty then
      ([default_review gathered.2 now_str], cache)
    else
      let sorted := (gathered.1.mergeSort review_sort_le).take limit
      (sorted, add_to_cache cache cache_key sorted now)

/-- Python `str.lower()`, modelled as per-character lowering of the string's
character list.  (`String.toLower` in the library is the same map but is
defined by well-founded recursion over byte positions, which blocks kernel
evaluation; this structural form evaluates.) -/
def lower (s : String) : String := ⟨s.data.map Char.toLower⟩

/-- The de-duplication loop of `get_competitors` (lines 672-678): keep a
competitor when its lowercased name is non-empty and not seen before. -/
def dedup_competitors : List CompetitorRec → List String → List CompetitorRec
  | [], _ => []
  | c :: cs, seen =>
    let nm := lower c.name
    if nm ≠ "" ∧ nm ∉ seen then c :: dedup_competitors cs (nm :: seen)
    else dedup_competitors cs seen

/-- Sort relation of lines 681-687:
`key=lambda x: (float(x.get('rating', 0)), -float(x.get('price_level', 5)))`
with `reverse=True`, i.e. stable descending lexicographic order on the pair
(rating, negated price level): rating descending, then price level ascending. -/
def competitor_sort_le (a b : CompetitorRec) : Bool :=
  let ka1 := a.rating.getD 0
  let ka2 := -(a.price_level.getD 5)
  let kb1 := b.rating.getD 0
  let kb2 := -(b.price_level.getD 5)
  decide (kb1 < ka1 ∨ (kb1 = ka1 ∧ kb2 ≤ ka2))

/-- De-duplicate then sort, as `get_competitors` does at lines 671-687. -/
def dedup_and_sort_competitors (cs : List CompetitorRec) : List CompetitorRec :=
  (dedup_competitors cs []).mergeSort competitor_sort_le

/-- `DataSourceManager.get_competitors` (lines 638-696).  The Google and Yelp
provider calls are abstracted as `Except` inputs; each sits in its own
`try`/`except` whose handler keeps the list accumulated so far.  The merged
list is de-duplicated, sorted, cached and returned. -/
def get_competitors (google yelp : Except String (List CompetitorRec))
    (cache : Cache (List CompetitorRec)) (now : Rat) (business_name : String) :
    List CompetitorRec × Cache (List CompetitorRec) :=
  let cache_key := get_cache_key business_name "competitors"
  match get_from_cache cache cache_key now with
  | (some cs, cache) => (cs, cache)
  | (none, cache) =>
    let comps :=
      (match google with | .ok cs => cs | .error _ => []) ++
      (match yelp with | .ok cs => cs | .error _ => [])
    let uniq := dedup_and_sort_competitors comps
    (uniq, add_to_cache cache cache_key uniq now)

/-- The TripAdvisor dict consumed by `_combine_business_data` (keys `name`,
`rating`, `num_reviews`, `price_level`, `address`, `reviews`); `none` models
an absent key. -/
structure TAData where
  name : Option String
  rating : Option Rat
  num_reviews : Option Nat
  price_level : Option String
  address : Option String
  reviews : Option (List Review)
deriving DecidableEq

/-- The Google Places dict consumed by `_combine_business_data` (keys `name`,
`rating`, `total_ratings`, `price_level`, `address`, `reviews`); `none` models
an absent key.  Price levels are modelled uniformly as strings, as the merge
code treats them as opaque truthy-or-empty values. -/
structure GPData where
  name : Option String
  rating : Option Rat
  total_ratings : Option Nat
  price_level : Option String
  address : Option String
  reviews : Option (List Review)
deriving DecidableEq

/-- The combined dict of `_combine_business_data` (lines 320-328). -/
structure CombinedData where
  name : String
  rating : Rat
  total_ratings : Nat
  price_level : String
  address : String
  reviews : List Review
  sources : List String
deriving DecidableEq

/-- The initial combined dict (lines 320-328). -/
def empty_combined : CombinedData :=
  { name := ""
    rating := 0
    total_ratings := 0
    price_level := ""
    address := ""
    reviews := []
    sources := [] }

/-- `BusinessDataFetcher._combine_business_data` (lines 311-362).  TripAdvisor
data (priority 1) is written unconditionally via `combined.update(...)` with
the source's `.get` defaults; Google Places data (priority 2) is written
per-field only where the combined field is still falsy (`if not combined[f]`),
and Google reviews are appended. -/
def combine_business_data (ta : Option TAData) (gp : Option GPData) : CombinedData :=
  let c := empty_combined
  let c := match ta with
    | none => c
    | some t =>
      { c with
        sources := c.sources ++ ["tripadvisor"]
        name := t.name.getD c.name
        rating := t.rating.getD 0
        total_ratings := t.num_reviews.getD 0
        price_level := t.price_level.getD ""
        address := t.address.getD ""
        reviews := t.reviews.getD [] }
  match gp with
  | none => c
  | some g =>
    let c := { c with sources := c.sources ++ ["google_places"] }
    let c := if c.name = "" then { c with name := g.name.getD "" } else c
    let c := if c.rating = (0 : Rat) then { c with rating := g.rating.getD 0 } else c
    let c := if c.total_ratings = 0 then { c with total_ratings := g.total_ratings.getD 0 } else c
    let c := if c.price_level = "" then { c with price_level := g.price_level.getD "" } else c
    let c := if c.address = "" then { c with address := g.address.getD "" } else c
    { c with reviews := c.reviews ++ g.reviews.getD [] }

/-- One response of the provider inside `_make_api_request`: a 200 with a
body, a 429, an error status (≥ 400, other than 429) on which
`raise_for_status` raises `HTTPError`, or a transport-level
`RequestException`.  (Statuses below 400 other than 200 and 429 make the
source loop forever without consuming a retry and are outside the model.) -/
inductive ApiResp where
  | success (body : String)
  | tooMany
  | httpError (status : Nat)
  | transport
deriving DecidableEq

/-- A Python-level failure of `_make_api_request`: an uncaught `NameError`
raised by evaluating an unbound module-global name, or a
`raise Exception(msg)`. -/
inductive PyErr where
  | nameError (nm : String)
  | exception (msg : String)
deriving DecidableEq, Repr

/-- Whether `business_data_fetcher.py` binds the module-global name `time`:
it does not.  The module's imports (lines 3-15) are os, json, logging,
requests, the abc/typing/datetime/statistics/dotenv from-imports, asyncio,
aiohttp and urllib3's `Retry`; there is no `import time`. -/
def module_binds_time : Bool := false

/-- Whether `business_data_fetcher.py` binds the module-global name
`random`: it does not — there is no `import random` either. -/
def module_binds_random : Bool := false

/-- The `while current_retry < max_retries` loop of
`BusinessDataFetcher._make_api_request` (lines 383-437), with
`gas = max_retries - current_retry` as the recursion measure and the number
of provider requests made threaded through.  Each iteration begins with
`current_time = time.time()` (line 392) followed by
`jitter = random.uniform(0, self.jitter_range)` (line 394); evaluating an
unbound module-global raises `NameError`, which the handler at line 422 —
catching only `requests.exceptions.RequestException` — does NOT catch, so
it propagates before any request is made.  Only if both names were bound
would the request run: 200 returns the body, 429 sleeps and retries, an
error status (via `raise_for_status`) or a transport failure retries while
`current_retry < max_retries - 1` and otherwise raises (a rate-limit
message only for a caught 429-carrying exception), and falling out of the
loop raises the generic max-retries message. -/
def make_api_request_loop (provider : Nat → ApiResp) (max_retries : Nat) :
    Nat → Nat → Except PyErr String × Nat
  | calls, 0 => (.error (.exception "Max retries exceeded, please try again later"), calls)
  | calls, gas+1 =>
    let current_retry := max_retries - (gas+1)
    if module_binds_time = false then
      (.error (.nameError "time"), calls)
    else if module_binds_random = false then
      (.error (.nameError "random"), calls)
    else
      match provider calls with
      | .success body => (.ok body, calls + 1)
      | .tooMany => make_api_request_loop provider max_retries (calls + 1) gas
      | .httpError status =>
        if current_retry < max_retries - 1 then
          make_api_request_loop provider max_retries (calls + 1) gas
        else if status = 429 then
          (.error (.exception "API rate limit exceeded. Please try again in a few minutes."),
           calls + 1)
        else
          (.error
            (.exception ("API request failed after " ++ toString max_retries ++ " retries")),
           calls + 1)
      | .transport =>
        if current_retry < max_retries - 1 then
          make_api_request_loop provider max_retries (calls + 1) gas
        else
          (.error
            (.exception ("API request failed after " ++ toString max_retries ++ " retries")),
           calls + 1)

/-- `_make_api_request` with its hard-coded `max_retries = 3` (line 385),
returning the outcome together with how many provider requests were made.
Because the module binds neither `time` nor `random`, every call raises
`NameError` for `time` on its first statement, with zero requests made. -/
def make_api_request (provider : Nat → ApiResp) : Except PyErr String × Nat :=
  make_api_request_loop provider 3 0 3

/-- The trim step of `APIRateLimiter.wait_if_needed` (line 29): drop recorded
timestamps that are not strictly newer than `now - 60`. -/
def trim_calls (calls : List Rat) (now : Rat) : List Rat :=
  calls.filter (fun c => decide (now - 60 < c))

/-- `APIRateLimiter.wait_if_needed` (lines 23-36) on an explicit clock.  The
caller enters at time `now`; the function returns the time at which the call
is admitted (after any `time.sleep`) and the new timestamp list.  When the
trimmed list has reached `calls_per_minute`, `self.calls[0]` on an empty list
raises `IndexError` (modelled as `error`); otherwise the caller sleeps
`60 - (now - oldest)` seconds when that is positive and is then admitted
unconditionally, with the pre-sleep entry time `now` appended to the list. -/
def wait_if_needed (calls_per_minute : Nat) (calls : List Rat) (now : Rat) :
    Except String (Rat × List Rat) :=
  let trimmed := trim_calls calls now
  if calls_per_minute ≤ trimmed.length then
    match trimmed with
    | [] => .error "IndexError: list index out of range"
    | oldest :: _ =>
      let sleep_time := 60 - (now - oldest)
      let admitted_at := if 0 < sleep_time then now + sleep_time else now
      .ok (admitted_at, trimmed ++ [now])
  else
    .ok (now, trimmed ++ [now])

/-- A sequence of admission attempts against one `APIRateLimiter`: `entries`
are the times at which successive calls enter `wait_if_needed`; the result is
the list of times at which they are actually admitted.  An `IndexError` aborts
the sequence. -/
def limiter_trace (calls_per_minute : Nat) : List Rat → List Rat → List Rat
  | _, [] => []
  | calls, e :: es =>
    match wait_if_needed calls_per_minute calls e with
    | .error _ => []
    | .ok (a, calls') => a :: limiter_trace calls_per_minute calls' es

/-- Number of admissions lying in the trailing 60-second window `(t - 60, t]`. -/
def admissions_in_window (admissions : List Rat) (t : Rat) : Nat :=
  (admissions.filter (fun a => decide (t - 60 < a) && decide (a ≤ t))).length

/-- Python substring containment `needle in hay` on strings. -/
def str_contains (hay needle : String) : Bool :=
  (List.range (hay.toList.length + 1)).any
    (fun i => needle.toList.isPrefixOf (hay.toList.drop i))

/-- A search candidate in `get_restaurant_details`; `idx` distinguishes
provider-order positions. -/
structure Candidate where
  name : String
  idx : Nat
deriving DecidableEq, Repr

/-- The per-candidate test of lines 82-84 of `shared/data_fetchers.py`:
`restaurant_name == search_name or search_name in restaurant_name or
restaurant_name in search_name`, on lowercased names. -/
def candidate_matches (business_name : String) (r : Candidate) : Bool :=
  let rn := lower r.name
  let sn := lower business_name
  rn == sn || str_contains rn sn || str_contains sn rn

/-- The candidate-selection block of `get_restaurant_details` (lines 76-91):
one pass over the candidates taking the first that passes
`candidate_matches`; if none does and the list is non-empty, the first
candidate is used and flagged as a closest match (the returned Bool). -/
def select_target_restaurant (business_name : String) (restaurants : List Candidate) :
    Option (Candidate × Bool) :=
  match restaurants.find? (candidate_matches business_name) with
  | some r => some (r, false)
  | none =>
    match restaurants with
    | [] => none
    | r :: _ => some (r, true)

/-- Claim C2 counterexample: against an always-429 provider,
`_make_api_request` performs no retries and produces no rate-limit error —
it raises `NameError` for the unbound name `time` at line 392, uncaught by
the `RequestException` handler, before making any request (zero requests,
where the claim requires `max_retries` retries then a rate-limit error);
against an always-404 provider it fails with the same `NameError`, not with
a typed non-retryable provider error. -/
theorem c2_counterexample :
    make_api_request (fun _ => ApiResp.tooMany) =
      (.error (.nameError "time"), 0) ∧
    make_api_request (fun _ => ApiResp.httpError 404) =
      (.error (.nameError "time"), 0) ∧
    PyErr.nameError "time" ≠
      PyErr.exception "API rate limit exceeded. Please try again in a few minutes." ∧
    (0 : Nat) ≠ 3 :=
  ⟨rfl, rfl, by decide, by decide⟩

/-- Claim C3 counterexample: with `calls_per_minute = 1`, the call sequence
entering at times 0, 1 and 60 (each entry at or after the previous admission,
so a legitimate single-caller timing) is admitted at times 0, 60 and 61; the
trailing window `(1, 61]` then contains 2 admissions, exceeding the bound 1.
The violation arises because line 36 appends the pre-sleep entry time and the
code never re-checks after sleeping. -/
theorem c3_counterexample :
    limiter_trace 1 [] [0, 1, 60] = [0, 60, 61] ∧
    admissions_in_window [0, 60, 61] 61 = 2 ∧ ¬ (2 ≤ 1) :=
  ⟨by norm_num [limiter_trace, wait_if_needed, trim_calls],
   by norm_num [admissions_in_window], by decide⟩

/-- Claim C6 counterexample: with `calls_per_minute = 0` and a non-empty prior
call list, `wait_if_needed` DOES grant an admission (it sleeps
`60 - (now - oldest)` seconds and then appends the caller), contradicting
"with an empty or any prior call list does not grant an admission". -/
theorem c6_counterexample :
    wait_if_needed 0 [0] 1 = .ok (60, [0, 1]) ∧
    (wait_if_needed 0 [0] 1).isOk = true :=
  ⟨by norm_num [wait_if_needed, trim_calls],
   by norm_num [wait_if_needed, trim_calls, Except.isOk, Except.toBool]⟩

/-- Claim C6 (amended): with `calls_per_minute = 0`, the very first
`wait_if_needed` call on the (reachable) empty timestamp list raises
`IndexError` at `self.calls[0]` before recording anything, so from the
limiter's initial state no admission is ever granted — the provider is
disabled by a crash rather than by graceful blocking. -/
theorem c6_zero_rate_disabled :
    (∀ now : Rat, wait_if_needed 0 [] now = .error "IndexError: list index out of range") ∧
    (∀ entries : List Rat, limiter_trace 0 [] entries = []) := by
  constructor
  · intro now
    rfl
  · intro entries
    cases entries with
    | nil => rfl
    | cons e es => rfl

/-- Claim C3 (amended): when the trimmed window is full, the caller sleeps
`60 - (now - oldest)` seconds when positive (so it is admitted at
`max now (oldest + 60)`) and is then admitted unconditionally, with its
pre-sleep entry time appended to the timestamp list; no re-check happens
after the sleep, which is why the trailing-window bound of the original
claim can be exceeded. -/
theorem c3_full_window_wait (n : Nat) (calls : List Rat) (now oldest : Rat)
    (rest : List Rat) (htrim : trim_calls calls now = oldest :: rest)
    (hfull : n ≤ (oldest :: rest).length) :
    wait_if_needed n calls now =
      .ok ((if now < oldest + 60 then oldest + 60 else now),
        (oldest :: rest) ++ [now]) := by
  simp only [wait_if_needed, htrim, if_pos hfull]
  congr 2
  split_ifs with h1 h2 h2
  · ring
  · linarith
  · linarith
  · rfl

/-- Witness for `c3_full_window_wait` at `n = 1`, `calls = [0]`, `now = 1`. -/
theorem c3_full_window_wait_witness :
    trim_calls [(0 : Rat)] 1 = [0] ∧
    wait_if_needed 1 [0] 1 =
      .ok ((if (1 : Rat) < 0 + 60 then 0 + 60 else 1), [(0 : Rat)] ++ [1]) :=
  ⟨by norm_num [trim_calls],
   c3_full_window_wait 1 [0] 1 0 [] (by norm_num [trim_calls]) (by simp)⟩

/-- Claim C2 (amended): `_make_api_request` raises `NameError` for the
unbound module-global `time` on the first statement of its first loop
iteration (line 392), before making any request, for EVERY provider: the
module never imports `time` (or `random`), and the `except` clause at line
422 catches only `requests.exceptions.RequestException`, so the `NameError`
propagates to the caller — zero requests, zero retries, and neither a
rate-limit-exceeded error nor a typed provider error is ever produced; the
retry/backoff logic below line 392 is unreachable. -/
theorem c2_retry_loop_behavior (provider : Nat → ApiResp) :
    make_api_request provider = (.error (.nameError "time"), 0) := rfl

/-- Claim C9 counterexample: for the query "Cafe Luz" and the candidate list
["Cafe Luz Valencia", "Cafe Luz"], a candidate matching the query exactly
(case-insensitively) is present, yet the selection picks "Cafe Luz Valencia":
the source makes a single pass taking the first candidate that passes the
combined exact-or-substring test, so the tier-(a) rule of the claim — an
exact match, if present, is chosen — is violated. -/
theorem c9_counterexample :
    (∃ c ∈ [Candidate.mk "Cafe Luz Valencia" 0, Candidate.mk "Cafe Luz" 1],
      lower c.name = lower "Cafe Luz") ∧
    select_target_restaurant "Cafe Luz"
        [Candidate.mk "Cafe Luz Valencia" 0, Candidate.mk "Cafe Luz" 1] =
      some (Candidate.mk "Cafe Luz Valencia" 0, false) ∧
    lower "Cafe Luz Valencia" ≠ lower "Cafe Luz" := by
  refine ⟨⟨Candidate.mk "Cafe Luz" 1, by simp, by decide⟩, by decide, by decide⟩

/-- Claim C9 (amended): for a non-empty candidate list the selection always
yields a candidate (never an error): a single pass chooses the first
candidate, in provider order, passing the combined
exact-or-substring-either-direction test; if no candidate passes, the first
candidate is chosen and flagged as a closest match. -/
theorem c9_selection_policy (business_name : String) (rs : List Candidate)
    (hne : rs ≠ []) :
    ∃ r flagged, select_target_restaurant business_name rs = some (r, flagged) ∧
      ((flagged = false ∧ candidate_matches business_name r = true ∧
          ∃ pre post, rs = pre ++ r :: post ∧
            ∀ c ∈ pre, candidate_matches business_name c = false) ∨
       (flagged = true ∧ rs.head? = some r ∧
          ∀ c ∈ rs, candidate_matches business_name c = false)) := by
  unfold select_target_restaurant
  cases hfind : rs.find? (candidate_matches business_name) with
  | some r =>
    obtain ⟨hpr, pre, post, heq, hpre⟩ := List.find?_eq_some.mp hfind
    exact ⟨r, false, rfl,
      Or.inl ⟨rfl, hpr, pre, post, heq, fun c hc => by simpa using hpre c hc⟩⟩
  | none =>
    cases rs with
    | nil => exact absurd rfl hne
    | cons r rs' =>
      refine ⟨r, true, rfl, Or.inr ⟨rfl, rfl, ?_⟩⟩
      intro c hc
      simpa using List.find?_eq_none.mp hfind c hc

/-- Witness for `c9_selection_policy` on the singleton candidate list. -/
theorem c9_selection_policy_witness :
    ∃ r flagged,
      select_target_restaurant "A" [Candidate.mk "A" 0] = some (r, flagged) ∧
      ((flagged = false ∧ candidate_matches "A" r = true ∧
          ∃ pre post, [Candidate.mk "A" 0] = pre ++ r :: post ∧
            ∀ c ∈ pre, candidate_matches "A" c = false) ∨
       (flagged = true ∧ [Candidate.mk "A" 0].head? = some r ∧
          ∀ c ∈ [Candidate.mk "A" 0], candidate_matches "A" c = false)) :=
  c9_selection_policy "A" [Candidate.mk "A" 0] (by simp)

/-- An environment in which every provider call of `get_business_data` raises. -/
def prov_env_fail : ProviderEnv := ⟨.error "down", .error "down", .error "down"⟩

/-- An environment in which every review source of `get_reviews` raises. -/
def rev_env_fail : ReviewsEnv := ⟨.error "down", .error "down", .error "down"⟩

/-- The fresh record always carries the requested name, whatever the
provider outcomes: none of the three per-provider updates touches the
`name` key. -/
theorem fetch_fresh_business_data_name (env : ProviderEnv) (business_name : String)
    (business_type location : Option String) :
    (fetch_fresh_business_data env business_name business_type location).name =
      business_name := by
  obtain ⟨pl, co, mk⟩ := env
  simp only [fetch_fresh_business_data]
  repeat' split
  all_goals rfl

/-- Claim C4 counterexample: a blank business name is NOT rejected: each of the
three public operations processes it like any other name and returns a normal
value (here, under failing providers, the placeholder record carrying the
blank name, the placeholder review list, and the empty competitor list);
no operation contains any input validation that raises on a blank name. -/
theorem c4_counterexample :
    (get_business_data prov_env_fail [] 0 "" none none false).1 =
      initial_business_data "" none none ∧
    (get_reviews rev_env_fail [] 0 "t" "" 50).1 =
      [default_review ["google_places: down", "yelp: down", "tripadvisor: down"] "t"] ∧
    (get_competitors (.error "down") (.error "down") [] 0 "").1 = [] := by
  refine ⟨rfl, rfl, ?_⟩
  simp [get_competitors, get_from_cache, dedup_and_sort_competitors, dedup_competitors]

/-- Claim C4 (amended): none of the three public operations ever raises, for
any input: every raising statement of the source is inside a handler and no
blank-name validation exists, so a blank name flows through like any other
name.  The record returned for a blank name carries the blank name; a blank
name with a positive limit still yields a non-empty review list (real reviews
or the placeholder); a blank name yields a normal (possibly empty) competitor
list. -/
theorem c4_operations_total (env : ProviderEnv) (renv : ReviewsEnv) (now : Rat)
    (now_str : String) (business_type location : Option String) (limit : Nat)
    (hlim : 0 < limit) :
    (get_business_data env [] now "" business_type location false).1.name = "" ∧
    (get_reviews renv [] now now_str "" limit).1 ≠ [] ∧
    (get_competitors (.error "x") (.error "y") [] now "").1 = [] := by
  refine ⟨?_, ?_, ?_⟩
  · exact fetch_fresh_business_data_name env "" business_type location
  · show (let gathered := gather_reviews renv limit
      if gathered.1.isEmpty then
        ([default_review gathered.2 now_str], ([] : Cache (List Review)))
      else
        let sorted := (gathered.1.mergeSort review_sort_le).take limit
        (sorted, add_to_cache [] (get_cache_key "" "reviews") sorted now)).1 ≠ []
    by_cases h : (gather_reviews renv limit).1.isEmpty
    · simp [h]
    · simp only [h, if_false, Bool.false_eq_true]
      have hpos : 0 < ((gather_reviews renv limit).1.mergeSort review_sort_le).length := by
        rw [List.length_mergeSort]
        exact List.length_pos.mpr (by simpa using h)
      intro hnil
      have := congrArg List.length hnil
      rw [List.length_take, List.length_nil] at this
      omega
  · simp [get_competitors, get_from_cache, dedup_and_sort_competitors, dedup_competitors]

/-- Witness for `c4_operations_total` at failing environments and limit 50. -/
theorem c4_operations_total_witness :
    0 < 50 ∧
    ((get_business_data prov_env_fail [] 0 "" none (some "V") false).1.name = "" ∧
     (get_reviews rev_env_fail [] 0 "t" "" 50).1 ≠ [] ∧
     (get_competitors (.error "x") (.error "y") [] 0 "").1 = []) :=
  ⟨by decide, c4_operations_total prov_env_fail rev_env_fail 0 "t" none (some "V") 50 (by decide)⟩

/-- Closed form of `_combine_business_data` on two present dicts: each scalar
field is the TripAdvisor value unless that value is falsy, in which case it
is the Google Places value; reviews are concatenated. -/
theorem combine_business_data_some_some (t : TAData) (g : GPData) :
    combine_business_data (some t) (some g) =
      { name := if t.name.getD "" = "" then g.name.getD "" else t.name.getD ""
        rating := if t.rating.getD 0 = 0 then g.rating.getD 0 else t.rating.getD 0
        total_ratings :=
          if t.num_reviews.getD 0 = 0 then g.total_ratings.getD 0 else t.num_reviews.getD 0
        price_level :=
          if t.price_level.getD "" = "" then g.price_level.getD "" else t.price_level.getD ""
        address := if t.address.getD "" = "" then g.address.getD "" else t.address.getD ""
        reviews := t.reviews.getD [] ++ g.reviews.getD []
        sources := ["tripadvisor", "google_places"] } := by
  simp only [combine_business_data, empty_combined]
  split_ifs <;> rfl

/-- Claim C5: the merge of `_combine_business_data` is first-writer-wins by
priority.  A scalar field holding a truthy value from the priority-1
(TripAdvisor) dict is never overwritten by the priority-2 (Google Places)
dict, and a field still holding its falsy default (absent or empty in the
priority-1 dict) is filled from the priority-2 dict.  "Filled" is the
source's own truthiness test: a non-empty string, a non-zero number. -/
theorem c5_priority_fill_in (t : TAData) (g : GPData) :
    (t.name.getD "" ≠ "" →
      (combine_business_data (some t) (some g)).name = t.name.getD "") ∧
    (t.name.getD "" = "" →
      (combine_business_data (some t) (some g)).name = g.name.getD "") ∧
    (t.rating.getD 0 ≠ 0 →
      (combine_business_data (some t) (some g)).rating = t.rating.getD 0) ∧
    (t.rating.getD 0 = 0 →
      (combine_business_data (some t) (some g)).rating = g.rating.getD 0) ∧
    (t.num_reviews.getD 0 ≠ 0 →
      (combine_business_data (some t) (some g)).total_ratings = t.num_reviews.getD 0) ∧
    (t.num_reviews.getD 0 = 0 →
      (combine_business_data (some t) (some g)).total_ratings = g.total_ratings.getD 0) ∧
    (t.price_level.getD "" ≠ "" →
      (combine_business_data (some t) (some g)).price_level = t.price_level.getD "") ∧
    (t.price_level.getD "" = "" →
      (combine_business_data (some t) (some g)).price_level = g.price_level.getD "") ∧
    (t.address.getD "" ≠ "" →
      (combine_business_data (some t) (some g)).address = t.address.getD "") ∧
    (t.address.getD "" = "" →
      (combine_business_data (some t) (some g)).address = g.address.getD "") := by
  rw [combine_business_data_some_some]
  refine ⟨?_, ?_, ?_, ?_, ?_, ?_, ?_, ?_, ?_, ?_⟩ <;> (intro h; simp [h])

/-- Witness TripAdvisor dict: supplies name and rating but no price level. -/
def ta_w : TAData :=
  { name := some "La Riua", rating := some (43 / 10), num_reviews := some 120,
    price_level := none, address := some "Calle del Mar", reviews := some [] }

/-- Witness Google Places dict: supplies name, rating and price level. -/
def gp_w : GPData :=
  { name := some "La Riua Restaurant", rating := some 5, total_ratings := some 7,
    price_level := some "2", address := some "Carrer X", reviews := some [] }

/-- Witness for `c5_priority_fill_in`: name and rating come from the
priority-1 dict, the price level is filled in from the priority-2 dict. -/
theorem c5_priority_fill_in_witness :
    (ta_w.name.getD "" ≠ "" ∧
      (combine_business_data (some ta_w) (some gp_w)).name = ta_w.name.getD "") ∧
    (ta_w.rating.getD 0 ≠ 0 ∧
      (combine_business_data (some ta_w) (some gp_w)).rating = ta_w.rating.getD 0) ∧
    (ta_w.price_level.getD "" = "" ∧
      (combine_business_data (some ta_w) (some gp_w)).price_level =
        gp_w.price_level.getD "") :=
  ⟨⟨by decide, (c5_priority_fill_in ta_w gp_w).1 (by decide)⟩,
   ⟨by norm_num [ta_w], (c5_priority_fill_in ta_w gp_w).2.2.1 (by norm_num [ta_w])⟩,
   ⟨rfl, (c5_priority_fill_in ta_w gp_w).2.2.2.2.2.2.2.1 rfl⟩⟩

/-- Claim C10: on a cache miss, when every review source yields no reviews,
`get_reviews` returns exactly one synthetic review — rating 3.0, user
"System", source "default", with a text stating that no reviews were found
plus the per-source errors — and this placeholder is NOT written to the
cache (the early return at line 621 skips `_add_to_cache`), so a later call
re-queries the providers; any non-empty result is cached, exactly as
returned, before being returned. -/
theorem c10_default_review_not_cached (env : ReviewsEnv) (cache : Cache (List Review))
    (now : Rat) (now_str business_name : String) (limit : Nat)
    (hmiss : (get_from_cache cache (get_cache_key business_name "reviews") now).1 = none) :
    ((gather_reviews env limit).1 = [] →
      get_reviews env cache now now_str business_name limit =
        ([default_review (gather_reviews env limit).2 now_str],
         (get_from_cache cache (get_cache_key business_name "reviews") now).2)) ∧
    ((gather_reviews env limit).1 ≠ [] →
      (get_reviews env cache now now_str business_name limit).2 =
        add_to_cache (get_from_cache cache (get_cache_key business_name "reviews") now).2
          (get_cache_key business_name "reviews")
          (get_reviews env cache now now_str business_name limit).1 now) ∧
    (default_review (gather_reviews env limit).2 now_str).rating = 3 ∧
    (default_review (gather_reviews env limit).2 now_str).user = "System" ∧
    (default_review (gather_reviews env limit).2 now_str).source = "default" := by
  rcases hgfc : get_from_cache cache (get_cache_key business_name "reviews") now with
    ⟨res, cache2⟩
  rw [hgfc] at hmiss
  simp only at hmiss
  subst hmiss
  refine ⟨?_, ?_, rfl, rfl, rfl⟩
  · intro hempty
    simp [get_reviews, hgfc, hempty]
  · intro hne
    simp [get_reviews, hgfc, hne]

/-- Witness for `c10_default_review_not_cached` with every source failing and
an empty cache. -/
theorem c10_default_review_not_cached_witness :
    (gather_reviews rev_env_fail 50).1 = [] ∧
    get_reviews rev_env_fail [] 0 "t" "B" 50 =
      ([default_review (gather_reviews rev_env_fail 50).2 "t"],
       (get_from_cache ([] : Cache (List Review)) (get_cache_key "B" "reviews") 0).2) :=
  ⟨rfl, (c10_default_review_not_cached rev_env_fail [] 0 "t" "B" 50 rfl).1 rfl⟩

/-- A lookup immediately after `_add_to_cache` under the same key hits while
the entry is younger than the TTL. -/
theorem get_from_cache_add_same {V : Type} (c : Cache V) (k : String) (v : V)
    (t now : Rat) (h : now - t < cache_ttl_seconds) :
    get_from_cache (add_to_cache c k v t) k now = (some v, add_to_cache c k v t) := by
  unfold get_from_cache add_to_cache
  rw [List.find?_cons_of_pos _ (by simp)]
  simp [h]

/-- Claim C7 counterexample: the cache key is `name:data_type` only — the
location is not part of it — so a second `get_business_data` call for the
same name with a DIFFERENT location is served the first call's cached record:
here the record fetched for "La Riua" in Valencia is returned for the
Alicante query. -/
theorem c7_counterexample :
    (get_business_data prov_env_fail
        (get_business_data prov_env_fail [] 0 "La Riua" none (some "Valencia") false).2 0
        "La Riua" none (some "Alicante") false).1.location = some "Valencia" ∧
    some "Valencia" ≠ some "Alicante" := by
  constructor
  · have h1 : (get_business_data prov_env_fail [] 0 "La Riua" none (some "Valencia") false).2 =
        add_to_cache [] (get_cache_key "La Riua" "business_data")
          (fetch_fresh_business_data prov_env_fail "La Riua" none (some "Valencia")) 0 := rfl
    have h2 := get_from_cache_add_same ([] : Cache BusinessData)
      (get_cache_key "La Riua" "business_data")
      (fetch_fresh_business_data prov_env_fail "La Riua" none (some "Valencia")) 0 0
      (by norm_num [cache_ttl_seconds])
    rw [h1]
    simp only [get_business_data, Bool.false_eq_true, if_false, h2]
    rfl
  · simp

/-- Claim C7 (amended): a fetched business record is cached under the key
`business_name + ":" + data_type` — the location is NOT part of the key, so
two calls for the same name with different locations share one cache entry
and the second returns the first call's record verbatim — and the TTL is a
uniform 10 minutes (600 seconds) for every data type, not 24 hours for
business data and 1 hour for reviews: an entry is served 599 seconds after
being written and is evicted (a miss) 601 seconds after. -/
theorem c7_cache_key_and_ttl :
    (∀ (env : ProviderEnv) (business_name : String) (btype l1 l2 : Option String) (now : Rat),
      (get_business_data env
          (get_business_data env [] now business_name btype l1 false).2 now
          business_name btype l2 false).1 =
        (get_business_data env [] now business_name btype l1 false).1) ∧
    (∀ (k : String) (v : BusinessData) (t0 : Rat),
      get_from_cache [(k, v, t0)] k (t0 + 599) = (some v, [(k, v, t0)]) ∧
      get_from_cache [(k, v, t0)] k (t0 + 601) = (none, [])) := by
  constructor
  · intro env business_name btype l1 l2 now
    have h1 : get_business_data env [] now business_name btype l1 false =
        (fetch_fresh_business_data env business_name btype l1,
         add_to_cache [] (get_cache_key business_name "business_data")
           (fetch_fresh_business_data env business_name btype l1) now) := rfl
    have h2 := get_from_cache_add_same ([] : Cache BusinessData)
      (get_cache_key business_name "business_data")
      (fetch_fresh_business_data env business_name btype l1) now now
      (by simp [cache_ttl_seconds])
    rw [h1]
    simp only [get_business_data, Bool.false_eq_true, if_false, h2]
  · intro k v t0
    constructor
    · unfold get_from_cache
      rw [List.find?_cons_of_pos _ (by simp)]
      have h : t0 + 599 - t0 < cache_ttl_seconds := by
        simp only [cache_ttl_seconds]
        norm_num
      show (if t0 + 599 - t0 < cache_ttl_seconds then (some v, [(k, v, t0)])
        else (none, List.filter (fun e2 => e2.1 != k) [(k, v, t0)])) = (some v, [(k, v, t0)])
      rw [if_pos h]
    · unfold get_from_cache
      rw [List.find?_cons_of_pos _ (by simp)]
      have h : ¬ (t0 + 601 - t0 < cache_ttl_seconds) := by
        simp only [cache_ttl_seconds]
        norm_num
      show (if t0 + 601 - t0 < cache_ttl_seconds then (some v, [(k, v, t0)])
        else (none, List.filter (fun e2 => e2.1 != k) [(k, v, t0)])) = (none, [])
      rw [if_neg h]
      simp

/-- Claim C8 counterexample: two spacing variants of "Cafe Luz" (one with a
double space) survive de-duplication — the source normalizes by lowercasing
ONLY, so spacing variants are distinct keys — and the merged list has two
entries where the claim requires exactly one. -/
theorem c8_counterexample :
    (dedup_and_sort_competitors
        [CompetitorRec.mk "Cafe Luz" (some 4) (some 2) 10,
         CompetitorRec.mk "cafe  luz" (some 4) (some 2) 20]).length = 2 ∧
    (2 : Nat) ≠ 1 := by
  constructor
  · rw [dedup_and_sort_competitors, List.length_mergeSort]
    decide
  · decide

/-- The de-duplication pass keeps at most one competitor per lowercased name:
its output is pairwise distinct on `lower (·.name)` and avoids the `seen`
accumulator. -/
theorem dedup_competitors_spec (cs : List CompetitorRec) (seen : List String) :
    (dedup_competitors cs seen).Pairwise (fun a b => lower a.name ≠ lower b.name) ∧
    ∀ c ∈ dedup_competitors cs seen, lower c.name ∉ seen := by
  induction cs generalizing seen with
  | nil => simp [dedup_competitors]
  | cons c cs ih =>
    simp only [dedup_competitors]
    split_ifs with h
    · obtain ⟨hnm, hseen⟩ := h
      obtain ⟨ih1, ih2⟩ := ih (lower c.name :: seen)
      refine ⟨List.Pairwise.cons ?_ ih1, ?_⟩
      · intro b hb
        have hb2 := ih2 b hb
        simp only [List.mem_cons, not_or] at hb2
        exact fun he => hb2.1 he.symm
      · intro d hd
        rcases List.mem_cons.mp hd with rfl | hd2
        · exact hseen
        · exact fun hds => (ih2 d hd2) (List.mem_cons_of_mem _ hds)
    · exact ih seen

/-- The competitor sort relation is transitive. -/
theorem competitor_sort_le_trans (a b c : CompetitorRec)
    (h1 : competitor_sort_le a b) (h2 : competitor_sort_le b c) :
    competitor_sort_le a c := by
  simp only [competitor_sort_le, decide_eq_true_eq] at h1 h2 ⊢
  rcases h1 with h1 | ⟨h1e, h1le⟩ <;> rcases h2 with h2 | ⟨h2e, h2le⟩ <;>
    first
      | (left; linarith)
      | (right; constructor <;> linarith)

/-- The competitor sort relation is total. -/
theorem competitor_sort_le_total (a b : CompetitorRec) :
    competitor_sort_le a b || competitor_sort_le b a := by
  simp only [competitor_sort_le, Bool.or_eq_true, decide_eq_true_eq]
  rcases lt_trichotomy (a.rating.getD 0) (b.rating.getD 0) with h | h | h
  · exact Or.inr (Or.inl h)
  · rcases le_total (-(b.price_level.getD 5)) (-(a.price_level.getD 5)) with h2 | h2
    · exact Or.inl (Or.inr ⟨h.symm, h2⟩)
    · exact Or.inr (Or.inr ⟨h, h2⟩)
  · exact Or.inl (Or.inl h)

unseal List.merge List.mergeSort in
/-- Claim C8 (amended): the merged competitor list is de-duplicated by
LOWERCASED name — case variants collapse to one entry but spacing variants do
not, and empty-named entries are dropped — and is sorted by rating descending
with PRICE LEVEL ASCENDING as the tie-breaker (the review count plays no
role).  Concretely: two case variants of "Cafe Luz" yield one entry, and of
two equally-rated competitors the one with the lower price level comes first
even though it has fewer reviews. -/
theorem c8_dedup_and_sort :
    (∀ cs : List CompetitorRec,
      (dedup_and_sort_competitors cs).Pairwise
        (fun a b => lower a.name ≠ lower b.name)) ∧
    (∀ cs : List CompetitorRec,
      (dedup_and_sort_competitors cs).Pairwise
        (fun a b => competitor_sort_le a b = true)) ∧
    dedup_and_sort_competitors
        [CompetitorRec.mk "Cafe Luz" (some 4) (some 2) 10,
         CompetitorRec.mk "CAFE LUZ" (some 4) (some 2) 20] =
      [CompetitorRec.mk "Cafe Luz" (some 4) (some 2) 10] ∧
    dedup_and_sort_competitors
        [CompetitorRec.mk "A" (some 4) (some 2) 20,
         CompetitorRec.mk "B" (some 4) (some 1) 10] =
      [CompetitorRec.mk "B" (some 4) (some 1) 10,
       CompetitorRec.mk "A" (some 4) (some 2) 20] := by
  refine ⟨?_, ?_, ?_, ?_⟩
  · intro cs
    have hd := (dedup_competitors_spec cs []).1
    have hperm := List.mergeSort_perm (dedup_competitors cs []) competitor_sort_le
    exact (hperm.pairwise_iff (fun hxy he => hxy he.symm)).mpr hd
  · intro cs
    simpa using
      List.sorted_mergeSort competitor_sort_le_trans competitor_sort_le_total
        (dedup_competitors cs [])
  · decide
  · decide
